import Mathlib

/-!
Shallow embedding of the OpenViking background-processing core:
`openviking/storage/vikingdb_manager.py` (the `VikingDBManager` orchestrator)
and `openviking/utils/async_utils.py` (the sync-to-async execution bridge).

External collaborators (the queue manager created by `init_queue_manager`,
the `EmbeddingQueue`, the storage backend reached through `super()`, the
asyncio runtime) are not part of the repository sources; their calls are
modelled by environment records of boolean oracles saying whether each
external call raises, and by explicit event traces recording which calls
the embedded code performs and in which order.  Python exceptions are
modelled with `Except PyErr`; `None`-able values with `Option`.
-/

/-- A Python exception, distinguishing `RuntimeError` (which
`async_utils.run_async` catches by class) from every other class. -/
inductive PyErr where
  | runtimeError (msg : String)
  | otherError (msg : String)
deriving DecidableEq

/-- Observable actions performed by `VikingDBManager` methods, in program
order. -/
inductive Event where
  | setClosing
  | qmStop
  | qmDiscard
  | logInfoQMStopped
  | backendClose
  | logCloseError
  | warnNoAGFS
  | embQueueInit
  | semQueueInit
  | qmStart
deriving DecidableEq

/-- Configuration object for the VectorDB backend (opaque to the core:
`VikingDBManager.__init__` only forwards it to `super().__init__`). -/
structure VectorDBBackendConfig where
  cfgId : Nat
deriving DecidableEq

/-- AGFS configuration: `url` is `Option String` so that both an absent
(`None`) and an empty URL are representable — Python tests it with
`if not self.agfs_url`. -/
structure AGFSConfig where
  url : Option String
  timeout : Nat
deriving DecidableEq

/-- Python truthiness of the `agfs_url` attribute: `None` and `""` are
falsy, every other string is truthy. -/
def urlTruthy : Option String → Bool
  | none => false
  | some s => s ≠ ""

/-- An embedding message.  `VikingDBManager.enqueue_embedding_msg` only
tests its truthiness and reads `id` for a debug log, so the payload is
reduced to the identifier; a falsy message (`None`) is `Option.none` at
the call sites below. -/
structure EmbeddingMsg where
  id : Nat
deriving DecidableEq

/-- The state of a `VikingDBManager` instance: the attributes set in
`__init__` that the embedded methods read or write.  `queue_manager`
records whether `self._queue_manager` is a live object (`true`) or `None`
(`false`); the handler/processor attributes are opaque references to
external objects and are not modelled. -/
structure VikingDBManager where
  agfs_url : Option String
  agfs_timeout : Nat
  queue_manager : Bool
  closing : Bool
deriving DecidableEq

/-- Oracles for the external calls made during `__init__`:
`super().__init__`, `init_queue_manager`, the two `get_queue`
registrations and `queue_manager.start()`. -/
structure InitEnv where
  backendInitRaises : Bool
  qmInitRaises : Bool
  embQueueRaises : Bool
  semQueueRaises : Bool
  startRaises : Bool
deriving DecidableEq

/-- `VikingDBManager.__init__` (with `_init_queue_manager`,
`_init_embedding_queue`, `_init_semantic_queue` inlined at their call
sites): initialize the base backend, set the attributes, and — only when
the AGFS URL is truthy — create the queue manager, register the embedding
and semantic queues, and start it.  No exception is caught, so any
raising external call propagates. -/
def VikingDBManager.init (vectordb_config : VectorDBBackendConfig)
    (agfs_config : AGFSConfig) (env : InitEnv) :
    Except PyErr (VikingDBManager × List Event) :=
  let _ := vectordb_config
  if env.backendInitRaises then
    .error (.otherError "super().__init__ failed")
  else
    let st : VikingDBManager :=
      { agfs_url := agfs_config.url
        agfs_timeout := agfs_config.timeout
        queue_manager := false
        closing := false }
    if urlTruthy agfs_config.url = false then
      -- _init_queue_manager logs a warning and returns; the
      -- `if self._queue_manager:` block in __init__ is skipped.
      .ok (st, [Event.warnNoAGFS])
    else if env.qmInitRaises then
      .error (.otherError "init_queue_manager failed")
    else
      let st := { st with queue_manager := true }
      if env.embQueueRaises then
        .error (.otherError "get_queue(EMBEDDING) failed")
      else if env.semQueueRaises then
        .error (.otherError "get_queue(SEMANTIC) failed")
      else if env.startRaises then
        .error (.otherError "queue_manager.start failed")
      else
        .ok (st, [Event.embQueueInit, Event.semQueueInit, Event.qmStart])

/-- The `is_closing` property. -/
def VikingDBManager.is_closing (st : VikingDBManager) : Bool :=
  st.closing

/-- The `has_queue_manager` property: `self._queue_manager is not None`. -/
def VikingDBManager.has_queue_manager (st : VikingDBManager) : Bool :=
  st.queue_manager

/-- Oracles for the external calls on the queue path:
whether `queue_manager.get_queue(EMBEDDING)` raises, whether its return
value passes the `isinstance(queue, EmbeddingQueue)` check, and whether
`embedding_queue.enqueue(...)` raises. -/
structure EnqEnv where
  getQueueRaises : Bool
  returnsEmbeddingQueue : Bool
  enqueueRaises : Bool
deriving DecidableEq

/-- The `embedding_queue` property: `None` when there is no queue manager;
otherwise `get_queue(EMBEDDING)` (which may raise), returned when it is an
`EmbeddingQueue` instance and `None` otherwise. -/
def VikingDBManager.embedding_queue (st : VikingDBManager) (env : EnqEnv) :
    Except PyErr (Option Unit) :=
  if st.queue_manager = false then .ok none
  else if env.getQueueRaises then .error (.otherError "get_queue failed")
  else if env.returnsEmbeddingQueue then .ok (some ()) else .ok none

/-- `enqueue_embedding_msg`: a falsy message returns `False`; a missing
queue manager raises `RuntimeError` (before the `try`); inside the `try`,
a missing embedding queue raises and any exception — including that one —
is caught by `except Exception` and turned into `False`; `True` is
returned only after `enqueue` completes. -/
def VikingDBManager.enqueue_embedding_msg (st : VikingDBManager)
    (embedding_msg : Option EmbeddingMsg) (env : EnqEnv) :
    Except PyErr Bool :=
  match embedding_msg with
  | none => .ok false
  | some _ =>
    if st.queue_manager = false then
      .error (.runtimeError "Queue manager not initialized, cannot enqueue embedding")
    else
      match st.embedding_queue env with
      | .error _ => .ok false
      | .ok none => .ok false
      | .ok (some _) => if env.enqueueRaises then .ok false else .ok true

/-- Oracles for the external calls in `get_embedding_queue_size`: whether
`get_queue("embedding")` raises, whether `queue.size()` raises, and the
size it reports otherwise. -/
structure SizeEnv where
  getQueueRaises : Bool
  sizeRaises : Bool
  sizeValue : Nat
deriving DecidableEq

/-- `get_embedding_queue_size`: `0` without a queue manager; otherwise the
queue's size, with any exception from the lookup or the `size()` call
caught and turned into `0`. -/
def VikingDBManager.get_embedding_queue_size (st : VikingDBManager)
    (env : SizeEnv) : Except PyErr Nat :=
  if st.queue_manager = false then .ok 0
  else if env.getQueueRaises then .ok 0
  else if env.sizeRaises then .ok 0
  else .ok env.sizeValue

/-- Oracles for the external calls in `close`: whether
`queue_manager.stop()` raises and whether `super().close()` raises. -/
structure CloseEnv where
  stopRaises : Bool
  backendCloseRaises : Bool
deriving DecidableEq

/-- The `try` block of `close` (after `self._closing = True`): stop and
discard the queue manager when present, then close the base backend.
Returns the exception if one was raised, together with the state at the
point the block exited and the events performed up to that point. -/
def closeTryBlock (st : VikingDBManager) (env : CloseEnv) :
    Option PyErr × VikingDBManager × List Event :=
  if st.queue_manager then
    if env.stopRaises then
      (some (.otherError "queue_manager.stop failed"), st, [Event.qmStop])
    else
      let st1 := { st with queue_manager := false }
      if env.backendCloseRaises then
        (some (.otherError "super().close failed"), st1,
          [Event.qmStop, Event.qmDiscard, Event.logInfoQMStopped, Event.backendClose])
      else
        (none, st1,
          [Event.qmStop, Event.qmDiscard, Event.logInfoQMStopped, Event.backendClose])
  else
    if env.backendCloseRaises then
      (some (.otherError "super().close failed"), st, [Event.backendClose])
    else
      (none, st, [Event.backendClose])

/-- `close`: set `self._closing = True` first, run the `try` block, and
catch any exception from it with `except Exception`, logging it.  The
`Except` return type records whether the call propagates an exception to
its caller. -/
def VikingDBManager.close (st : VikingDBManager) (env : CloseEnv) :
    Except PyErr (VikingDBManager × List Event) :=
  let st1 := { st with closing := true }
  match closeTryBlock st1 env with
  | (none, st2, evs) => .ok (st2, Event.setClosing :: evs)
  | (some _, st2, evs) => .ok (st2, Event.setClosing :: (evs ++ [Event.logCloseError]))

/-- An operation a caller can perform on an already-constructed manager. -/
inductive MOp where
  | closeOp (env : CloseEnv)
  | enqueueOp (msg : Option EmbeddingMsg) (env : EnqEnv)
  | sizeOp (env : SizeEnv)

/-- State transition of one manager operation.  `enqueue_embedding_msg`
and `get_embedding_queue_size` assign to no attribute of `self`, so they
leave the state unchanged; `close` yields the state it returns. -/
def VikingDBManager.step (st : VikingDBManager) (op : MOp) : VikingDBManager :=
  match op with
  | .closeOp env =>
    match st.close env with
    | .ok (st1, _) => st1
    | .error _ => st
  | .enqueueOp _ _ => st
  | .sizeOp _ => st

/-! ## Execution bridge (`openviking/utils/async_utils.py`)

Module-level state: `_loop` (an event loop or `None`, with a `closed`
flag) and the count of `atexit.register(_shutdown_loop)` calls performed
so far.  The `_loop_thread` reference always tracks `_loop` (created
together, cleared together) and carries no extra observable state, so it
is not modelled separately.  The double-checked lock collapses in this
single-threaded model: both checks see the same state. -/

/-- A live event-loop object: its identity and whether it is closed. -/
structure Loop where
  id : Nat
  closed : Bool
deriving DecidableEq

/-- Module-level state of `async_utils`. -/
structure BridgeState where
  loop : Option Loop
  registrations : Nat
deriving DecidableEq

/-- The module state at import time: `_loop = None`, nothing registered. -/
def initialBridge : BridgeState := ⟨none, 0⟩

/-- Whether `_get_loop` takes its creation branch: `_loop is None or
_loop.is_closed()`. -/
def needCreate (s : BridgeState) : Bool :=
  match s.loop with
  | some l => l.closed
  | none => true

/-- `_get_loop`: return the existing live loop, or create a fresh one
(identified by `fresh`), start its thread, and register `_shutdown_loop`
with `atexit` — one more registration each time this branch runs. -/
def getLoop (s : BridgeState) (fresh : Nat) : BridgeState × Nat :=
  match s.loop with
  | some l =>
    if l.closed = false then (s, l.id)
    else (⟨some ⟨fresh, false⟩, s.registrations + 1⟩, fresh)
  | none => (⟨some ⟨fresh, false⟩, s.registrations + 1⟩, fresh)

/-- Actions of `_shutdown_loop`. -/
inductive BridgeEvent where
  | loopStop
  | threadJoin
  | loopClose
deriving DecidableEq

/-- `_shutdown_loop`: when a live (non-closed) loop exists, stop it, join
its thread and close it; in every case end with `_loop = None` and
`_loop_thread = None`. -/
def shutdownLoop (s : BridgeState) : BridgeState × List BridgeEvent :=
  match s.loop with
  | some l =>
    if l.closed = false then
      (⟨none, s.registrations⟩,
        [BridgeEvent.loopStop, BridgeEvent.threadJoin, BridgeEvent.loopClose])
    else (⟨none, s.registrations⟩, [])
  | none => (⟨none, s.registrations⟩, [])

/-- Actions of `run_async`, in program order. -/
inductive RunEvent where
  | nestAsyncioApply
  | runUntilComplete
  | submitThreadsafe
  | blockOnFuture
deriving DecidableEq

/-- `run_async`.  A coroutine is represented by its outcome
(`Except PyErr α`); `running` is whether `asyncio.get_running_loop()`
succeeds on the calling thread; `fresh` names the loop `_get_loop` would
create.

The whole `try` body is guarded by `except RuntimeError`.  When no loop
is running, `get_running_loop` raises `RuntimeError` and the handler
submits the coroutine to the shared background loop and blocks on the
future, which returns the coroutine's result or re-raises its exception.
When a loop IS running, `nest_asyncio.apply()` is called and
`loop.run_until_complete(coro)` returns the result or re-raises the
coroutine's exception — and if that exception is itself a `RuntimeError`,
the `except RuntimeError` clause catches it too, so control falls into
the background-submission path holding an already-awaited coroutine,
whose second await raises a fresh reuse `RuntimeError`. -/
def run_async (α : Type) (running : Bool) (bs : BridgeState) (fresh : Nat)
    (coro : Except PyErr α) : Except PyErr α × BridgeState × List RunEvent :=
  if running then
    match coro with
    | .error (.runtimeError _) =>
      let bs1 := (getLoop bs fresh).1
      (.error (.runtimeError "cannot reuse already awaited coroutine"), bs1,
        [RunEvent.nestAsyncioApply, RunEvent.runUntilComplete,
         RunEvent.submitThreadsafe, RunEvent.blockOnFuture])
    | r => (r, bs, [RunEvent.nestAsyncioApply, RunEvent.runUntilComplete])
  else
    let bs1 := (getLoop bs fresh).1
    (coro, bs1, [RunEvent.submitThreadsafe, RunEvent.blockOnFuture])

/-! ## Claims -/

/-- C1: `enqueue_embedding_msg` returns `False` immediately for a falsy
message; raises `RuntimeError` for a real message when no queue manager is
configured; returns `False` whenever any failure occurs inside the queue
path; and returns `True` exactly when the enqueue into the embedding queue
completes without error. -/
theorem enqueue_embedding_msg_spec (st : VikingDBManager)
    (msg : Option EmbeddingMsg) (env : EnqEnv) :
    (msg = none → st.enqueue_embedding_msg msg env = .ok false) ∧
    (msg ≠ none → st.queue_manager = false →
      st.enqueue_embedding_msg msg env =
        .error (.runtimeError "Queue manager not initialized, cannot enqueue embedding")) ∧
    (msg ≠ none → st.queue_manager = true →
      (env.getQueueRaises = true ∨ env.returnsEmbeddingQueue = false ∨
        env.enqueueRaises = true) →
      st.enqueue_embedding_msg msg env = .ok false) ∧
    (st.enqueue_embedding_msg msg env = .ok true ↔
      msg ≠ none ∧ st.queue_manager = true ∧ env.getQueueRaises = false ∧
        env.returnsEmbeddingQueue = true ∧ env.enqueueRaises = false) := by
  rcases st with ⟨u, t, qm, cl⟩
  rcases env with ⟨gq, ret, enq⟩
  rcases msg with _ | m <;> cases qm <;> cases gq <;> cases ret <;> cases enq <;>
    simp [VikingDBManager.enqueue_embedding_msg, VikingDBManager.embedding_queue]

/-- Witness for C1: a real message, a queue manager, and a failure-free
queue path yield `True`. -/
theorem enqueue_embedding_msg_spec_witness :
    (⟨some "http://agfs", 5, true, false⟩ : VikingDBManager).enqueue_embedding_msg
      (some ⟨7⟩) ⟨false, true, false⟩ = .ok true := by
  have h := enqueue_embedding_msg_spec ⟨some "http://agfs", 5, true, false⟩
    (some ⟨7⟩) ⟨false, true, false⟩
  exact h.2.2.2.mpr (by decide)

/-- C8: the falsy-message check precedes the queue-manager check: with no
queue manager configured, a `none` message still returns `False`, and the
`RuntimeError` is raised only for non-null messages. -/
theorem null_check_precedes_config_check (st : VikingDBManager) (env : EnqEnv)
    (h : st.queue_manager = false) :
    st.enqueue_embedding_msg none env = .ok false ∧
    ∀ m : EmbeddingMsg, st.enqueue_embedding_msg (some m) env =
      .error (.runtimeError "Queue manager not initialized, cannot enqueue embedding") := by
  exact ⟨rfl, fun m => by simp [VikingDBManager.enqueue_embedding_msg, h]⟩

/-- Witness for C8: a manager with no queue manager, concrete env. -/
theorem null_check_precedes_config_check_witness :
    (⟨none, 0, false, false⟩ : VikingDBManager).enqueue_embedding_msg none
      ⟨false, true, false⟩ = .ok false ∧
    (⟨none, 0, false, false⟩ : VikingDBManager).enqueue_embedding_msg (some ⟨1⟩)
      ⟨false, true, false⟩ =
      .error (.runtimeError "Queue manager not initialized, cannot enqueue embedding") := by
  have h := null_check_precedes_config_check ⟨none, 0, false, false⟩
    ⟨false, true, false⟩ (by decide)
  exact ⟨h.1, h.2 ⟨1⟩⟩

/-- C10: `get_embedding_queue_size` never raises; it returns `0` both when
no queue manager is configured and when any error occurs looking up the
queue or reading its size — and, unlike `enqueue_embedding_msg`, a missing
queue manager is not surfaced loudly on this path. -/
theorem get_embedding_queue_size_never_raises (st : VikingDBManager)
    (env : SizeEnv) :
    (∃ n, st.get_embedding_queue_size env = .ok n) ∧
    (st.queue_manager = false → st.get_embedding_queue_size env = .ok 0) ∧
    (env.getQueueRaises = true ∨ env.sizeRaises = true →
      st.get_embedding_queue_size env = .ok 0) ∧
    (st.queue_manager = false → ∀ (m : EmbeddingMsg) (e : EnqEnv),
      st.enqueue_embedding_msg (some m) e =
        .error (.runtimeError "Queue manager not initialized, cannot enqueue embedding")) := by
  rcases st with ⟨u, t, qm, cl⟩
  rcases env with ⟨gq, sr, n⟩
  refine ⟨?_, ?_, ?_, ?_⟩
  · cases qm <;> cases gq <;> cases sr <;>
      exact ⟨_, rfl⟩
  · intro h
    simp only [show qm = false from h]
    rfl
  · rintro (h | h)
    · cases qm <;>
        simp [VikingDBManager.get_embedding_queue_size, show gq = true from h]
    · cases qm <;> cases gq <;>
        simp [VikingDBManager.get_embedding_queue_size, show sr = true from h]
  · intro h m e
    simp [VikingDBManager.enqueue_embedding_msg, show qm = false from h]

/-- Witness for C10: no queue manager, a raising env; size is `0` and the
enqueue path raises. -/
theorem get_embedding_queue_size_never_raises_witness :
    (⟨none, 0, false, false⟩ : VikingDBManager).get_embedding_queue_size
      ⟨true, false, 3⟩ = .ok 0 := by
  have h := get_embedding_queue_size_never_raises ⟨none, 0, false, false⟩
    ⟨true, false, 3⟩
  exact h.2.1 (by decide)

/-- C3: `close` never propagates an exception: whatever the queue-manager
stop and the backend close do, the call returns normally; when one of them
raised, the exception was caught and logged. -/
theorem close_never_raises (st : VikingDBManager) (env : CloseEnv) :
    ∃ st1 evs, st.close env = .ok (st1, evs) ∧
      ((st.queue_manager = true ∧ env.stopRaises = true) ∨
          env.backendCloseRaises = true →
        Event.logCloseError ∈ evs) := by
  rcases st with ⟨u, t, qm, cl⟩
  rcases env with ⟨sr, br⟩
  cases qm <;> cases sr <;> cases br <;>
    refine ⟨_, _, rfl, ?_⟩ <;> intro h <;>
    first
      | decide
      | (revert h; simp)

/-- Witness for C3: a raising `stop` is caught and logged, and `close`
still returns. -/
theorem close_never_raises_witness :
    ∃ st1 evs, VikingDBManager.close ⟨none, 0, true, false⟩ ⟨true, false⟩ =
      .ok (st1, evs) ∧ Event.logCloseError ∈ evs := by
  obtain ⟨st1, evs, h1, h2⟩ :=
    close_never_raises ⟨none, 0, true, false⟩ ⟨true, false⟩
  exact ⟨st1, evs, h1, h2 (Or.inl ⟨rfl, rfl⟩)⟩

/-- C4 counterexample: after a first fully successful `close`, a second
`close` call performs the backend-close teardown action again — its trace
contains `backendClose` — refuting "the second call performs no additional
teardown actions". -/
theorem close_twice_counterexample :
    VikingDBManager.close ⟨none, 0, true, false⟩ ⟨false, false⟩ =
      .ok (⟨none, 0, false, true⟩,
        [Event.setClosing, Event.qmStop, Event.qmDiscard,
         Event.logInfoQMStopped, Event.backendClose]) ∧
    VikingDBManager.close ⟨none, 0, false, true⟩ ⟨false, false⟩ =
      .ok (⟨none, 0, false, true⟩, [Event.setClosing, Event.backendClose]) ∧
    Event.backendClose ∈ [Event.setClosing, Event.backendClose] :=
  ⟨rfl, rfl, by decide⟩

/-- C4 (amended): provided the first `close`'s queue-manager stop did not
raise, a second `close` raises nothing, performs no additional
queue-manager stop, and leaves the state unchanged — but it does invoke
the storage backend's close again, as every `close` call does. -/
theorem close_twice_amended (st : VikingDBManager) (env1 env2 : CloseEnv)
    (h : env1.stopRaises = false) :
    ∃ st1 evs1 st2 evs2,
      st.close env1 = .ok (st1, evs1) ∧
      st1.close env2 = .ok (st2, evs2) ∧
      Event.qmStop ∉ evs2 ∧ Event.backendClose ∈ evs2 ∧ st2 = st1 := by
  rcases st with ⟨u, t, qm, cl⟩
  rcases env1 with ⟨sr1, br1⟩
  rcases env2 with ⟨sr2, br2⟩
  have hs : sr1 = false := h
  subst hs
  cases qm <;> cases br1 <;> cases sr2 <;> cases br2 <;>
    exact ⟨_, _, _, _, rfl, rfl, by decide, by decide, rfl⟩

/-- Witness for C4's amended theorem at a concrete manager and envs. -/
theorem close_twice_amended_witness :
    ∃ st1 evs1 st2 evs2,
      VikingDBManager.close ⟨none, 0, true, false⟩ ⟨false, false⟩ =
        .ok (st1, evs1) ∧
      VikingDBManager.close st1 ⟨false, false⟩ = .ok (st2, evs2) ∧
      Event.qmStop ∉ evs2 ∧ Event.backendClose ∈ evs2 ∧ st2 = st1 :=
  close_twice_amended ⟨none, 0, true, false⟩ ⟨false, false⟩ ⟨false, false⟩ rfl

/-- C5: within every execution of `close`, the closing flag is set first —
it is the first event, and `is_closing` holds on the resulting state; when
a queue manager exists, its `stop` is the immediately following action,
the reference discard comes strictly between the stop and any backend
close, and when the stop does not raise the discard and backend close do
occur; without a queue manager no stop is performed. -/
theorem close_ordering (st : VikingDBManager) (env : CloseEnv) :
    ∃ st1 evs, st.close env = .ok (st1, evs) ∧
      st1.is_closing = true ∧
      evs.head? = some Event.setClosing ∧
      (st.queue_manager = true →
        evs.indexOf Event.qmStop = 1 ∧
        evs.indexOf Event.qmStop < evs.indexOf Event.qmDiscard ∧
        (Event.backendClose ∈ evs →
          evs.indexOf Event.qmDiscard < evs.indexOf Event.backendClose) ∧
        (env.stopRaises = false →
          Event.qmDiscard ∈ evs ∧ Event.backendClose ∈ evs)) ∧
      (st.queue_manager = false → Event.qmStop ∉ evs) := by
  rcases st with ⟨u, t, qm, cl⟩
  rcases env with ⟨sr, br⟩
  cases qm <;> cases sr <;> cases br <;>
    refine ⟨_, _, rfl, rfl, rfl, ?_, ?_⟩ <;> intro h <;>
    first
      | decide
      | (revert h; simp)

/-- Witness for C5: concrete close with a queue manager; the trace starts
with `setClosing` and `qmStop` is at index 1. -/
theorem close_ordering_witness :
    ∃ st1 evs, VikingDBManager.close ⟨none, 0, true, false⟩ ⟨false, false⟩ =
      .ok (st1, evs) ∧ evs.head? = some Event.setClosing ∧
      evs.indexOf Event.qmStop = 1 := by
  obtain ⟨st1, evs, h1, h2, h3, h4, h5⟩ :=
    close_ordering ⟨none, 0, true, false⟩ ⟨false, false⟩
  exact ⟨st1, evs, h1, h3, (h4 rfl).1⟩

/-- C9: the closing flag is monotonic: it is `false` after a successful
construction, `true` on the state `close` returns, and no manager
operation (close, enqueue, size query) ever resets it to `false`. -/
theorem closing_flag_monotonic :
    (∀ (vcfg : VectorDBBackendConfig) (acfg : AGFSConfig) (env : InitEnv)
        (st : VikingDBManager) (evs : List Event),
      VikingDBManager.init vcfg acfg env = .ok (st, evs) →
        st.is_closing = false) ∧
    (∀ (st : VikingDBManager) (env : CloseEnv), ∃ st1 evs,
      st.close env = .ok (st1, evs) ∧ st1.is_closing = true) ∧
    (∀ (st : VikingDBManager) (op : MOp),
      st.is_closing = true → (st.step op).is_closing = true) := by
  refine ⟨?_, ?_, ?_⟩
  · intro vcfg acfg env st evs h
    rcases env with ⟨b1, b2, b3, b4, b5⟩
    cases b1 <;> cases hu : urlTruthy acfg.url <;>
      cases b2 <;> cases b3 <;> cases b4 <;> cases b5 <;>
      simp [VikingDBManager.init, hu] at h <;>
      · obtain ⟨h1, -⟩ := h
        simp [← h1, VikingDBManager.is_closing]
  · intro st env
    rcases st with ⟨u, t, qm, cl⟩
    rcases env with ⟨sr, br⟩
    cases qm <;> cases sr <;> cases br <;> exact ⟨_, _, rfl, rfl⟩
  · intro st op h
    rcases st with ⟨u, t, qm, cl⟩
    rcases op with ⟨⟨sr, br⟩⟩ | ⟨m, e⟩ | e
    · cases qm <;> cases sr <;> cases br <;> rfl
    · exact h
    · exact h

/-- Witness for C9: the state returned by a concrete `close` has
`is_closing = true`. -/
theorem closing_flag_monotonic_witness :
    ∃ st1 evs, VikingDBManager.close ⟨none, 0, true, false⟩ ⟨false, false⟩ =
      .ok (st1, evs) ∧ st1.is_closing = true :=
  closing_flag_monotonic.2.1 ⟨none, 0, true, false⟩ ⟨false, false⟩

/-- C6: constructing a manager with an absent/empty AGFS URL succeeds
without raising (given the base backend initializes), creates no queue
manager (`has_queue_manager` is false), logs the degraded configuration
as a warning, and never starts a queue manager — synchronous-storage-only
mode. -/
theorem init_no_agfs_url (vcfg : VectorDBBackendConfig) (acfg : AGFSConfig)
    (env : InitEnv) (hurl : urlTruthy acfg.url = false)
    (hb : env.backendInitRaises = false) :
    ∃ st evs, VikingDBManager.init vcfg acfg env = .ok (st, evs) ∧
      st.has_queue_manager = false ∧
      st.is_closing = false ∧
      Event.warnNoAGFS ∈ evs ∧
      Event.qmStart ∉ evs := by
  rcases env with ⟨b1, b2, b3, b4, b5⟩
  have hb1 : b1 = false := hb
  subst hb1
  have hinit : VikingDBManager.init vcfg acfg ⟨false, b2, b3, b4, b5⟩ =
      .ok (⟨acfg.url, acfg.timeout, false, false⟩, [Event.warnNoAGFS]) := by
    simp [VikingDBManager.init, hurl]
  exact ⟨_, _, hinit, rfl, rfl, by decide, by decide⟩

/-- Witness for C6: a `None` URL and a clean backend yield a running
manager with no queue manager and a logged warning. -/
theorem init_no_agfs_url_witness :
    ∃ st evs, VikingDBManager.init ⟨0⟩ ⟨none, 30⟩
        ⟨false, false, false, false, false⟩ = .ok (st, evs) ∧
      st.has_queue_manager = false ∧
      st.is_closing = false ∧
      Event.warnNoAGFS ∈ evs ∧
      Event.qmStart ∉ evs :=
  init_no_agfs_url ⟨0⟩ ⟨none, 30⟩ ⟨false, false, false, false, false⟩
    (by decide) (by decide)

/-- C7 counterexample: one get–shutdown–get cycle performs two
`atexit.register(_shutdown_loop)` calls, so teardown is not registered
exactly once over a lifecycle that includes teardown followed by lazy
recreation: each creation registers it again. -/
theorem teardown_registered_once_counterexample :
    ((getLoop (shutdownLoop (getLoop initialBridge 0).1).1 1).1).registrations
      = 2 := rfl

/-- C7 (amended): teardown registration with `atexit` happens exactly once
per creation of the shared loop — a lookup that finds a live loop
registers nothing and returns the state unchanged, while each (re)creation
registers once more — and invoking `_shutdown_loop` when the loop is
already torn down is a no-op that leaves the module state unchanged and
performs no stop/join/close action; in particular a second shutdown right
after a shutdown is such a no-op. -/
theorem teardown_registration (s : BridgeState) (fresh : Nat) :
    (needCreate s = false → (getLoop s fresh).1 = s) ∧
    (needCreate s = true →
      ((getLoop s fresh).1).registrations = s.registrations + 1) ∧
    (s.loop = none → shutdownLoop s = (s, [])) ∧
    shutdownLoop (shutdownLoop s).1 = ((shutdownLoop s).1, []) := by
  rcases s with ⟨l, r⟩
  rcases l with _ | ⟨lid, lc⟩
  · refine ⟨?_, fun _ => rfl, fun _ => rfl, rfl⟩
    intro h
    simp [needCreate] at h
  · cases lc
    · refine ⟨fun _ => rfl, ?_, ?_, rfl⟩
      · intro h
        simp [needCreate] at h
      · intro h
        simp at h
    · refine ⟨?_, fun _ => rfl, ?_, rfl⟩
      · intro h
        simp [needCreate] at h
      · intro h
        simp at h

/-- Witness for C7's amended theorem: a live loop is returned unchanged,
and shutdown twice equals shutdown once with no further actions. -/
theorem teardown_registration_witness :
    (getLoop ⟨some ⟨0, false⟩, 1⟩ 5).1 = ⟨some ⟨0, false⟩, 1⟩ ∧
    shutdownLoop (shutdownLoop ⟨some ⟨0, false⟩, 1⟩).1 =
      ((shutdownLoop ⟨some ⟨0, false⟩, 1⟩).1, []) := by
  have h := teardown_registration ⟨some ⟨0, false⟩, 1⟩ 5
  exact ⟨h.1 (by decide), h.2.2.2⟩

/-- C2 counterexample: from inside a running event loop, work that fails
with `RuntimeError "boom"` is not re-raised as such: `run_async` raises
the coroutine-reuse error instead, which differs from the work's own
failure. -/
theorem run_async_counterexample :
    (run_async Nat true initialBridge 0 (.error (.runtimeError "boom"))).1 =
      .error (.runtimeError "cannot reuse already awaited coroutine") ∧
    (run_async Nat true initialBridge 0 (.error (.runtimeError "boom"))).1 ≠
      .error (.runtimeError "boom") := by
  refine ⟨rfl, fun h => ?_⟩
  rw [show (run_async Nat true initialBridge 0
      (.error (.runtimeError "boom"))).1 =
      .error (.runtimeError "cannot reuse already awaited coroutine")
    from rfl] at h
  injection h with h1
  injection h1 with h2
  exact absurd h2 (by decide)

/-- C2 (amended): `run_async` returns the work's result and re-raises its
failure on both paths, except when the calling thread is inside a running
event loop and the work fails with a `RuntimeError`: the
`except RuntimeError` clause — meant to select the no-running-loop
fallback — catches that failure too, and the call resubmits the
already-awaited coroutine to the shared background loop, raising the
coroutine-reuse `RuntimeError` instead of the original failure.  Outside
a running loop, the work goes to the shared loop obtained by `_get_loop`
via thread-safe submission and the blocking future yields its result or
failure. -/
theorem run_async_spec (α : Type) (running : Bool) (bs : BridgeState)
    (fresh : Nat) (coro : Except PyErr α) :
    (running = false →
      run_async α running bs fresh coro =
        (coro, (getLoop bs fresh).1,
          [RunEvent.submitThreadsafe, RunEvent.blockOnFuture])) ∧
    (running = true → ∀ a, coro = .ok a →
      run_async α running bs fresh coro =
        (.ok a, bs, [RunEvent.nestAsyncioApply, RunEvent.runUntilComplete])) ∧
    (running = true → ∀ s, coro = .error (.otherError s) →
      run_async α running bs fresh coro =
        (.error (.otherError s), bs,
          [RunEvent.nestAsyncioApply, RunEvent.runUntilComplete])) ∧
    (running = true → ∀ s, coro = .error (.runtimeError s) →
      (run_async α running bs fresh coro).1 =
        .error (.runtimeError "cannot reuse already awaited coroutine")) := by
  cases running
  · refine ⟨fun _ => rfl, ?_, ?_, ?_⟩ <;>
    · intro h
      simp at h
  · refine ⟨?_, ?_, ?_, ?_⟩
    · intro h
      simp at h
    · rintro - a rfl
      rfl
    · rintro - s rfl
      rfl
    · rintro - s rfl
      rfl

/-- Witness for C2's amended theorem: a successful coroutine returns its
value on the background path and on the nested path. -/
theorem run_async_spec_witness :
    run_async Nat false initialBridge 0 (.ok 42) =
      (.ok 42, (getLoop initialBridge 0).1,
        [RunEvent.submitThreadsafe, RunEvent.blockOnFuture]) ∧
    run_async Nat true initialBridge 0 (.ok 42) =
      (.ok 42, initialBridge,
        [RunEvent.nestAsyncioApply, RunEvent.runUntilComplete]) := by
  have h1 := run_async_spec Nat false initialBridge 0 (.ok 42)
  have h2 := run_async_spec Nat true initialBridge 0 (.ok 42)
  exact ⟨h1.1 rfl, h2.2.1 rfl 42 rfl⟩
